import Mathlib

/-
Verification of the authentication & identity-caching subsystem of the
photoapp backend (FastAPI + SQLAlchemy + Redis).

Shallow embedding conventions:
* Time is `Nat`, in integral seconds (python-jose serialises `iat`/`exp`
  datetimes as integer Unix seconds, so two tokens produced within the same
  second from the same claims are the same string).
* A JWT string is modelled by its decoded content plus the signing key: two
  encodings of equal claim sets under the same key are equal strings, and a
  signature verifies exactly when the decoding key equals the signing key.
* Redis is an association list from key strings to cached snapshots; entry
  expiry is modelled by absence of the entry, and the TTL set by `EXPIRE` is
  recorded on the entry.  `pickle.dumps`/`pickle.loads` round-trip is the
  identity on snapshots.
* `HTTPException(status_code, detail)` is an `HttpError` value; an uncaught
  Python exception (e.g. a `KeyError` escaping a `try/except JWTError`) is
  the generic 500 response FastAPI would produce for it.
-/

set_option autoImplicit false

namespace PhotoApp

/-- Roles from `src/database/models.py` (`class Role(enum.Enum)`). -/
inductive Role where
  | admin
  | moderator
  | user
  deriving DecidableEq, Repr

/-- A decoded JWT together with its signing key.  Claims are the ones the
auth service reads: `sub` and `scope` via `.get`/`[]` (hence `Option`), and
`iat`/`exp` integers.  `key` stands for the signature: decoding with a key
succeeds iff it equals `key`. -/
structure Token where
  sub : Option String
  iat : Nat
  exp : Nat
  scope : Option String
  key : String
  deriving DecidableEq, Repr

/-- The user row of `src/database/models.py` (`class User`), together with
the `is_active` attribute that `services/auth.py` and `routes/users.py`
read on every user object, and with `refresh_token` holding a modelled
`Token` rather than its string form. -/
structure UserRec where
  id : Nat
  username : String
  email : String
  confirmed : Bool
  password : String
  refresh_token : Option Token
  avatar : Option String
  roles : Role
  is_active : Bool
  deriving DecidableEq, Repr

/-- An `HTTPException(status_code=..., detail=...)` as raised by the auth
service and routes. -/
structure HttpError where
  statusCode : Nat
  detail : String
  deriving DecidableEq, Repr

/-- `services/auth.py` line 130: 401 "Could not validate credentials". -/
def credentials_exception : HttpError :=
  { statusCode := 401, detail := "Could not validate credentials" }

/-- `services/auth.py` line 136: 401 "The user is on the ban list". -/
def user_banned : HttpError :=
  { statusCode := 401, detail := "The user is on the ban list" }

/-- `services/auth.py` line 113: 401 "Invalid scope for token". -/
def invalid_scope_error : HttpError :=
  { statusCode := 401, detail := "Invalid scope for token" }

/-- `routes/auth.py` line 94: 401 "Invalid refresh token". -/
def invalid_refresh_error : HttpError :=
  { statusCode := 401, detail := "Invalid refresh token" }

/-- `services/auth.py` line 189: 422 "Invalid token for email verification". -/
def invalid_email_token_error : HttpError :=
  { statusCode := 422, detail := "Invalid token for email verification" }

/-- `routes/auth.py` line 207 and `routes/users.py`: 400 "Verification error". -/
def verification_error : HttpError :=
  { statusCode := 400, detail := "Verification error" }

/-- `routes/users.py`: 404 "User not found!". -/
def user_not_found_error : HttpError :=
  { statusCode := 404, detail := "User not found!" }

/-- `routes/users.py` line 55: 400 "User with this name already exists!". -/
def username_taken_error : HttpError :=
  { statusCode := 400, detail := "User with this name already exists!" }

/-- `routes/users.py` line 197: 400 "You can't change your role". -/
def own_role_error : HttpError :=
  { statusCode := 400, detail := "You can't change your role" }

/-- `routes/users.py` line 200: 400 for banned / unconfirmed targets. -/
def banned_role_error : HttpError :=
  { statusCode := 400,
    detail := "You can't change the role of a banned user or not confirmed" }

/-- An uncaught Python exception (e.g. `KeyError` on a missing claim, which
`except JWTError` does not catch) surfaces as FastAPI's generic 500. -/
def internal_server_error : HttpError :=
  { statusCode := 500, detail := "Internal Server Error" }

/-- `settings.secret_key` — the single configured signing key. -/
def SECRET_KEY : String := "settings.secret_key"

/-- Failure modes of `jose.jwt.decode`: the signature is verified first
(`JWTError` on mismatch), then the `exp` claim (`ExpiredSignatureError`,
a `JWTError` subclass, when `exp` is in the past). -/
inductive DecodeErr where
  | badSignature
  | expired
  deriving DecidableEq, Repr

/-- `jose.jwt.decode(token, key, algorithms=[...])`: checks the signature
first, then expiry (`exp < now` fails; a token is still accepted at the
instant `now = exp`, leeway 0). -/
def jwtDecode (tok : Token) (key : String) (now : Nat) : Except DecodeErr Token :=
  if tok.key ≠ key then .error .badSignature
  else if tok.exp < now then .error .expired
  else .ok tok

/-- `Auth.create_access_token` (`services/auth.py` 57-74): claims are the
caller's `data` (always `{"sub": email}` at the call sites) plus `iat = now`,
`exp = now + expires_delta` seconds when `expires_delta` is truthy, else
`now + 15` minutes, and `scope = "access_token"`, signed with `SECRET_KEY`. -/
def create_access_token (sub : Option String) (expires_delta : Option Nat) (now : Nat) : Token :=
  let expire :=
    match expires_delta with
    | some d => if d ≠ 0 then now + d else now + 15 * 60
    | none => now + 15 * 60
  { sub := sub, iat := now, exp := expire, scope := some "access_token", key := SECRET_KEY }

/-- `Auth.create_refresh_token` (`services/auth.py` 76-95): same as the
access case with default lifetime 7 days and `scope = "refresh_token"`. -/
def create_refresh_token (sub : Option String) (expires_delta : Option Nat) (now : Nat) : Token :=
  let expire :=
    match expires_delta with
    | some d => if d ≠ 0 then now + d else now + 7 * 24 * 60 * 60
    | none => now + 7 * 24 * 60 * 60
  { sub := sub, iat := now, exp := expire, scope := some "refresh_token", key := SECRET_KEY }

/-- `Auth.create_email_token` (`services/auth.py` 193-207): `data` plus
`iat`/`exp` (7 days); note no `scope` claim is added. -/
def create_email_token (sub : Option String) (now : Nat) : Token :=
  { sub := sub, iat := now, exp := now + 7 * 24 * 60 * 60, scope := none, key := SECRET_KEY }

/-- `Auth.decode_refresh_token` (`services/auth.py` 97-115): decode (401
"Could not validate credentials" on `JWTError`), then `payload["scope"]`
must equal `"refresh_token"` (else 401 "Invalid scope for token"), and
`payload["sub"]` is returned.  A missing `scope` or `sub` key raises
`KeyError`, which `except JWTError` does not catch. -/
def decode_refresh_token (tok : Token) (now : Nat) : Except HttpError String :=
  match jwtDecode tok SECRET_KEY now with
  | .error _ => .error credentials_exception
  | .ok payload =>
    match payload.scope with
    | none => .error internal_server_error
    | some sc =>
      if sc = "refresh_token" then
        match payload.sub with
        | some email => .ok email
        | none => .error internal_server_error
      else .error invalid_scope_error

/-- Lines 138-148 of `Auth.get_current_user` (`services/auth.py`): decode
with the service key; any `JWTError`, a scope other than `"access_token"`
(read with `.get`), or a missing `sub` all raise the one
`credentials_exception`. -/
def verify_access_token (tok : Token) (now : Nat) : Except HttpError String :=
  match jwtDecode tok SECRET_KEY now with
  | .error _ => .error credentials_exception
  | .ok payload =>
    if payload.scope = some "access_token" then
      match payload.sub with
      | some email => .ok email
      | none => .error credentials_exception
    else .error credentials_exception

/-- `Auth.get_email_from_token` (`services/auth.py` 173-191): decode (422
"Invalid token for email verification" on `JWTError`), then return
`payload["sub"]` — with no scope check at all; a missing `sub` raises an
uncaught `KeyError`. -/
def get_email_from_token (tok : Token) (now : Nat) : Except HttpError String :=
  match jwtDecode tok SECRET_KEY now with
  | .error _ => .error invalid_email_token_error
  | .ok payload =>
    match payload.sub with
    | some email => .ok email
    | none => .error internal_server_error

/-- A Redis value as written by `get_current_user`: the pickled user row,
plus the TTL set by the subsequent `EXPIRE` call (none until then). -/
structure CacheEntry where
  snapshot : UserRec
  ttl : Option Nat
  deriving DecidableEq, Repr

/-- Shared mutable world seen by the auth subsystem: the `users` table, the
Redis identity cache, and the set of blacklisted (revoked) tokens consulted
by `is_validate_token`. -/
structure AppState where
  users : List UserRec
  cache : List (String × CacheEntry)
  revoked : List Token
  deriving DecidableEq, Repr

/-- I/O actions the pipeline performs against Redis and the database, in
program order. -/
inductive Event where
  | revocationCheck (tok : Token)
  | cacheGet (key : String)
  | cacheSet (key : String)
  | cacheExpire (key : String) (seconds : Nat)
  | cacheDel (key : String)
  | dbGetByEmail (email : String)
  | dbGetByUsername (username : String)
  | dbCommit
  deriving DecidableEq, Repr

/-- The Redis key `f"user:\x7bemail\x7d"` used throughout. -/
def userKey (email : String) : String := "user:" ++ email

/-- Redis `GET key`. -/
def cacheGet (c : List (String × CacheEntry)) (k : String) : Option CacheEntry :=
  (c.find? (fun p => p.1 = k)).map (fun p => p.2)

/-- Redis `SET key value` — overwrites, and clears any previous TTL. -/
def cacheSet (c : List (String × CacheEntry)) (k : String) (u : UserRec) :
    List (String × CacheEntry) :=
  (k, { snapshot := u, ttl := none }) :: c.filter (fun p => p.1 ≠ k)

/-- Redis `EXPIRE key seconds`. -/
def cacheExpire (c : List (String × CacheEntry)) (k : String) (seconds : Nat) :
    List (String × CacheEntry) :=
  c.map (fun p => if p.1 = k then (p.1, { p.2 with ttl := some seconds }) else p)

/-- Redis `DELETE key` (`redis_client.delete(key_to_clear)`). -/
def cacheDel (c : List (String × CacheEntry)) (k : String) :
    List (String × CacheEntry) :=
  c.filter (fun p => p.1 ≠ k)

/-- `repository.users.get_user_by_email`: `select(User).filter_by(email=...)`,
first row or `None`. -/
def get_user_by_email (email : String) (users : List UserRec) : Option UserRec :=
  users.find? (fun u => u.email = email)

/-- `repository.users.get_user_username`: `select(User).filter(User.username
== username)`, one row or `None`. -/
def get_user_username (username : String) (users : List UserRec) : Option UserRec :=
  users.find? (fun u => u.username = username)

/-- Modelled from the spec: `is_validate_token` is imported from
`src/repository/users.py` by `services/auth.py` and the tests, but the
provided `repository/users.py` does not contain it.  Spec §4.2
(RevocationStore): `is_revoked(token) -> bool`, true exactly for tokens
recorded as revoked. -/
def is_validate_token (tok : Token) (s : AppState) : Bool :=
  s.revoked.contains tok

/-- Lines 167-171 of `Auth.get_current_user`: `pickle.loads` the cached
bytes (identity in this model) and reject with `user_banned` when
`user_clean.is_active` is falsy. -/
def unpickle_and_ban_check (u : UserRec) (s : AppState) (evs : List Event) :
    Except HttpError UserRec × AppState × List Event :=
  if u.is_active = false then (.error user_banned, s, evs)
  else (.ok u, s, evs)

/-- `Auth.get_current_user` (`services/auth.py` 117-171): verify the bearer
token (signature, expiry, scope `"access_token"`, `sub` present), reject
blacklisted tokens, then resolve the identity through the Redis cache with
a fall back to the users table (caching the freshly loaded row with
`EXPIRE 900` — but only after its `is_active` check passes), and finally
re-check `is_active` on the unpickled snapshot. -/
def get_current_user (s : AppState) (tok : Token) (now : Nat) :
    Except HttpError UserRec × AppState × List Event :=
  match verify_access_token tok now with
  | .error e => (.error e, s, [])
  | .ok email =>
    if is_validate_token tok s then
      (.error credentials_exception, s, [.revocationCheck tok])
    else
      match cacheGet s.cache (userKey email) with
      | some entry =>
        unpickle_and_ban_check entry.snapshot s
          [.revocationCheck tok, .cacheGet (userKey email)]
      | none =>
        match get_user_by_email email s.users with
        | none =>
          (.error credentials_exception, s,
            [.revocationCheck tok, .cacheGet (userKey email), .dbGetByEmail email])
        | some user =>
          if user.is_active = false then
            (.error user_banned, s,
              [.revocationCheck tok, .cacheGet (userKey email), .dbGetByEmail email])
          else
            let c1 := cacheExpire (cacheSet s.cache (userKey email) user) (userKey email) 900
            unpickle_and_ban_check user { s with cache := c1 }
              [.revocationCheck tok, .cacheGet (userKey email), .dbGetByEmail email,
                .cacheSet (userKey email), .cacheExpire (userKey email) 900]

/-- Write `u'` over every row whose email equals `email` (the ORM object
mutation + `commit` pattern used by the repository functions). -/
def commitUser (email : String) (u' : UserRec) (users : List UserRec) : List UserRec :=
  users.map (fun v => if v.email = email then u' else v)

/-- `repository.users.update_token` (`repository/users.py` 51-62): sets
`user.refresh_token` and commits — but only under `if refresh_token:`, so a
`None` argument (the route's attempt to clear the stored token) leaves the
table unchanged. -/
def update_token (user : UserRec) (refresh_token : Option Token) (users : List UserRec) :
    List UserRec :=
  match refresh_token with
  | some t => commitUser user.email { user with refresh_token := some t } users
  | none => users

/-- `refresh_token` route (`routes/auth.py` 74-104): decode the presented
refresh token; if its subject has a user row and the stored token differs,
call `update_token(user, None, db)` and reject 401 "Invalid refresh token";
otherwise mint a fresh pair with `create_access_token`/`create_refresh_token`
and, when the user row exists, persist the new refresh token. -/
def refresh_route (s : AppState) (tok : Token) (now : Nat) :
    Except HttpError (Token × Token) × AppState :=
  match decode_refresh_token tok now with
  | .error e => (.error e, s)
  | .ok email =>
    match get_user_by_email email s.users with
    | some user =>
      if user.refresh_token ≠ some tok then
        (.error invalid_refresh_error, { s with users := update_token user none s.users })
      else
        let access := create_access_token (some email) none now
        let refresh := create_refresh_token (some email) none now
        (.ok (access, refresh),
          { s with users := update_token user (some refresh) s.users })
    | none =>
      let access := create_access_token (some email) none now
      let refresh := create_refresh_token (some email) none now
      (.ok (access, refresh), s)

/-- The bcrypt hash (`Auth.get_password_hash`) is an opaque one-way
primitive; modelled as a deterministic tag of the plaintext. -/
def get_password_hash (password : String) : String := "bcrypt$" ++ password

/-- `repository.users.change_password` (`repository/users.py` 102-120):
set `user.password` and commit. -/
def change_password (user : UserRec) (password : String) (users : List UserRec) :
    UserRec × List UserRec :=
  let u' := { user with password := password }
  (u', commitUser user.email u' users)

/-- `reset_password` route (`routes/auth.py` 187-212): recover the email via
`get_email_from_token` (no scope check), 400 "Verification error" when no
such user, else hash the new password and persist it. -/
def reset_password_route (s : AppState) (new_password : String) (tok : Token) (now : Nat) :
    Except HttpError (UserRec × String) × AppState :=
  match get_email_from_token tok now with
  | .error e => (.error e, s)
  | .ok email =>
    match get_user_by_email email s.users with
    | none => (.error verification_error, s)
    | some user =>
      let confirm_password := get_password_hash new_password
      let (u', users') := change_password user confirm_password s.users
      (.ok (u', "Password reset complete!"), { s with users := users' })

/-- The Cloudinary upload performed by `edit_my_profile` is external I/O;
its resulting URL is modelled as a deterministic function of the public id
`f"avatar/\x7buser.username\x7d"` it is stored under. -/
def cloudinary_avatar_url (username : String) : String := "avatar/" ++ username

/-- `repository.users.edit_my_profile` (`repository/users.py` 81-99): load
by email; set `username` when `name` is truthy; upload the avatar and store
its URL; commit.  No cache access of any kind. -/
def repo_edit_my_profile (email : String) (name : String) (s : AppState) :
    Option UserRec × AppState × List Event :=
  match get_user_by_email email s.users with
  | none => (none, s, [.dbGetByEmail email])
  | some user =>
    let u1 := if name ≠ "" then { user with username := name } else user
    let u2 := { u1 with avatar := some (cloudinary_avatar_url u1.username) }
    (some u2, { s with users := commitUser email u2 s.users },
      [.dbGetByEmail email, .dbCommit])

/-- Modelled from the spec: `ban_user` is imported from
`src/repository/users.py` by `routes/users.py` and the tests, but the
provided `repository/users.py` does not contain it.  Spec §6: the UserStore
mutation `ban` persists the flag change and calls
`IdentityCache.invalidate(subject)` before returning success. -/
def repo_ban_user (email : String) (s : AppState) :
    Option UserRec × AppState × List Event :=
  match get_user_by_email email s.users with
  | none => (none, s, [.dbGetByEmail email])
  | some user =>
    let u' := { user with is_active := false }
    (some u',
      { s with users := commitUser email u' s.users,
               cache := cacheDel s.cache (userKey email) },
      [.dbGetByEmail email, .dbCommit, .cacheDel (userKey email)])

/-- Modelled from the spec: `activate_user` is imported from
`src/repository/users.py` by `routes/users.py` and the tests, but the
provided `repository/users.py` does not contain it.  Spec §6: the UserStore
mutation `activate` persists the flag change and calls
`IdentityCache.invalidate(subject)` before returning success. -/
def repo_activate_user (email : String) (s : AppState) :
    Option UserRec × AppState × List Event :=
  match get_user_by_email email s.users with
  | none => (none, s, [.dbGetByEmail email])
  | some user =>
    let u' := { user with is_active := true }
    (some u',
      { s with users := commitUser email u' s.users,
               cache := cacheDel s.cache (userKey email) },
      [.dbGetByEmail email, .dbCommit, .cacheDel (userKey email)])

/-- Modelled from the spec: `change_role` is imported from
`src/repository/users.py` by `routes/users.py` and the tests, but the
provided `repository/users.py` does not contain it.  Spec §6: the UserStore
mutation `change_role` persists the role change and calls
`IdentityCache.invalidate(subject)` before returning success. -/
def repo_change_role (email : String) (role : Role) (s : AppState) :
    Option UserRec × AppState × List Event :=
  match get_user_by_email email s.users with
  | none => (none, s, [.dbGetByEmail email])
  | some user =>
    let u' := { user with roles := role }
    (some u',
      { s with users := commitUser email u' s.users,
               cache := cacheDel s.cache (userKey email) },
      [.dbGetByEmail email, .dbCommit, .cacheDel (userKey email)])

/-- `ban_user` route (`routes/users.py` 109-141): load the target by
username (404 if absent); delete the target's cache key up front; then
either refuse self-ban / already-banned (success responses without any
mutation) or call the repository `ban_user`. -/
def ban_user_route (s : AppState) (username : String) (current_user : UserRec) :
    Except HttpError (Option UserRec × String) × AppState × List Event :=
  match get_user_username username s.users with
  | none => (.error user_not_found_error, s, [.dbGetByUsername username])
  | some target =>
    let key := userKey target.email
    let s1 := { s with cache := cacheDel s.cache key }
    if target.username = current_user.username then
      (.ok (some target, "You can't ban yourself"), s1,
        [.dbGetByUsername username, .cacheDel key])
    else if target.is_active = false then
      (.ok (some target, "User has already been banned"), s1,
        [.dbGetByUsername username, .cacheDel key])
    else
      let (u', s2, evs) := repo_ban_user target.email s1
      (.ok (u', "The user " ++ target.username ++ " has been banned"), s2,
        [.dbGetByUsername username, .cacheDel key] ++ evs)

/-- `activate_user` route (`routes/users.py` 144-163): load the target by
username (404 if absent) and call the repository `activate_user`; the route
itself performs no cache access. -/
def activate_user_route (s : AppState) (username : String) :
    Except HttpError (Option UserRec × String) × AppState × List Event :=
  match get_user_username username s.users with
  | none => (.error user_not_found_error, s, [.dbGetByUsername username])
  | some target =>
    let (u', s', evs) := repo_activate_user target.email s
    (.ok (u', "The user " ++ target.username ++ " has been activated"), s',
      [.dbGetByUsername username] ++ evs)

/-- `change_role` route (`routes/users.py` 166-203): load the target by
username (404 if absent); the target must be active and confirmed (400
otherwise) and distinct from the caller (400 otherwise); then call the
repository `change_role`.  The route itself performs no cache access. -/
def change_role_route (s : AppState) (username : String) (role : Role)
    (current_user : UserRec) :
    Except HttpError (Option UserRec × String) × AppState × List Event :=
  match get_user_username username s.users with
  | none => (.error user_not_found_error, s, [.dbGetByUsername username])
  | some target =>
    if target.is_active && target.confirmed then
      if current_user.username ≠ target.username then
        let (u', s', evs) := repo_change_role target.email role s
        (.ok (u', "The user's role has been changed"), s',
          [.dbGetByUsername username] ++ evs)
      else (.error own_role_error, s, [.dbGetByUsername username])
    else (.error banned_role_error, s, [.dbGetByUsername username])

/-- `edit_my_profile` route (`routes/users.py` 32-59): reject 400 when the
requested name is already taken, else call the repository
`edit_my_profile` for the caller's email.  Neither the route nor the
repository function touches the identity cache. -/
def edit_my_profile_route (s : AppState) (name : String) (current_user : UserRec) :
    Except HttpError (Option UserRec × String) × AppState × List Event :=
  match get_user_username name s.users with
  | some _ => (.error username_taken_error, s, [.dbGetByUsername name])
  | none =>
    let (u', s', evs) := repo_edit_my_profile current_user.email name s
    (.ok (u', "My profile was successfully edited"), s',
      [.dbGetByUsername name] ++ evs)

/-- True exactly on successful results. -/
def isOk {ε α : Type} : Except ε α → Bool
  | .ok _ => true
  | .error _ => false

instance {ε α : Type} [DecidableEq ε] [DecidableEq α] : DecidableEq (Except ε α) := by
  intro x y
  cases x with
  | ok a =>
    cases y with
    | ok b =>
      exact if h : a = b then .isTrue (by rw [h]) else
        .isFalse (by intro hc; cases hc; exact h rfl)
    | error b => exact .isFalse (by intro hc; cases hc)
  | error a =>
    cases y with
    | ok b => exact .isFalse (by intro hc; cases hc)
    | error b =>
      exact if h : a = b then .isTrue (by rw [h]) else
        .isFalse (by intro hc; cases hc; exact h rfl)

/-- Deleting a key removes it: a subsequent `GET` misses. -/
theorem cacheGet_cacheDel (c : List (String × CacheEntry)) (k : String) :
    cacheGet (cacheDel c k) k = none := by
  induction c with
  | nil => rfl
  | cons p ps ih =>
    by_cases hp : p.1 = k
    · have hdrop : cacheDel (p :: ps) k = cacheDel ps k := by simp [cacheDel, hp]
      rw [hdrop]
      exact ih
    · have hkeep : cacheDel (p :: ps) k = p :: cacheDel ps k := by simp [cacheDel, hp]
      rw [hkeep]
      simpa [cacheGet, List.find?, hp] using ih

/-- `SET key u` followed by `EXPIRE key n` yields an entry holding `u` with
TTL `n`. -/
theorem cacheGet_set_expire (c : List (String × CacheEntry)) (k : String)
    (u : UserRec) (n : Nat) :
    cacheGet (cacheExpire (cacheSet c k u) k n) k =
      some { snapshot := u, ttl := some n } := by
  simp [cacheGet, cacheSet, cacheExpire, List.find?]

/-- A row found by email lookup carries that email. -/
theorem get_user_by_email_mem (email : String) (users : List UserRec) (u : UserRec)
    (h : get_user_by_email email users = some u) : u.email = email := by
  have := List.find?_some h
  exact of_decide_eq_true this

/-- Writing a row through `commitUser` makes it the one found by a
subsequent email lookup, provided a row with that email already existed. -/
theorem get_user_by_email_commitUser (email : String) (u' : UserRec)
    (users : List UserRec) (u : UserRec)
    (hmail : u'.email = email) (h : get_user_by_email email users = some u) :
    get_user_by_email email (commitUser email u' users) = some u' := by
  induction users with
  | nil => simp [get_user_by_email] at h
  | cons v vs ih =>
    by_cases hv : v.email = email
    · simp [get_user_by_email, commitUser, hv, hmail, List.find?]
    · have h' : get_user_by_email email vs = some u := by
        simpa [get_user_by_email, List.find?, hv] using h
      simpa [get_user_by_email, commitUser, List.find?, hv] using ih h'

/-- C7: for every subject `S` and nonzero `ttl`, a token issued by
`create_access_token` at time `t` verifies under the access pipeline to `S`
at any `now < t + ttl`; a token issued by `create_refresh_token` always
fails the access verification (with the single opaque
`credentials_exception`), and an access token always fails
`decode_refresh_token`. -/
theorem issue_verify_roundtrip (email : String) (ttl t now now2 : Nat)
    (httl : ttl ≠ 0) (hnow : now < t + ttl) :
    verify_access_token (create_access_token (some email) (some ttl) t) now = .ok email ∧
    verify_access_token (create_refresh_token (some email) (some ttl) t) now2 =
      .error credentials_exception ∧
    isOk (decode_refresh_token (create_access_token (some email) (some ttl) t) now2) =
      false := by
  have hexp : ¬ (t + ttl < now) := by omega
  refine ⟨?_, ?_, ?_⟩
  · simp [verify_access_token, create_access_token, jwtDecode, httl, hexp]
  · by_cases h2 : t + ttl < now2
    · simp [verify_access_token, create_refresh_token, jwtDecode, httl, h2]
    · simp [verify_access_token, create_refresh_token, jwtDecode, httl, h2]
  · by_cases h2 : t + ttl < now2
    · simp [decode_refresh_token, create_access_token, jwtDecode, httl, h2, isOk]
    · simp [decode_refresh_token, create_access_token, jwtDecode, httl, h2, isOk]

/-- Witness for C7 at subject `"alice@x"`, `ttl = 60`, issued at `t = 0`,
verified at `now = 30`. -/
theorem issue_verify_roundtrip_witness :
    verify_access_token (create_access_token (some "alice@x") (some 60) 0) 30 =
      .ok "alice@x" ∧
    verify_access_token (create_refresh_token (some "alice@x") (some 60) 0) 30 =
      .error credentials_exception ∧
    isOk (decode_refresh_token (create_access_token (some "alice@x") (some 60) 0) 30) =
      false :=
  issue_verify_roundtrip "alice@x" 60 0 30 30 (by decide) (by decide)

/-- Concrete active user, for witnesses. -/
def aliceU : UserRec :=
  { id := 1, username := "alice", email := "alice@x", confirmed := true,
    password := "pw", refresh_token := none, avatar := some "av",
    roles := .user, is_active := true }

/-- Concrete banned (inactive) user, for witnesses. -/
def bobInactive : UserRec :=
  { id := 2, username := "bob", email := "bob@x", confirmed := true,
    password := "pw", refresh_token := none, avatar := none,
    roles := .user, is_active := false }

/-- A well-signed, unexpired access token for `alice@x`. -/
def tokA : Token :=
  { sub := some "alice@x", iat := 0, exp := 1000,
    scope := some "access_token", key := SECRET_KEY }

/-- A well-signed, unexpired access token for `bob@x`. -/
def tokB : Token :=
  { sub := some "bob@x", iat := 0, exp := 1000,
    scope := some "access_token", key := SECRET_KEY }

/-- An access token signed with the wrong key. -/
def tokBadSig : Token :=
  { sub := some "alice@x", iat := 0, exp := 1000,
    scope := some "access_token", key := "mallory" }

/-- A well-signed token with the refresh scope. -/
def tokWrongScope : Token :=
  { sub := some "alice@x", iat := 0, exp := 1000,
    scope := some "refresh_token", key := SECRET_KEY }

/-- A well-signed access token with no `sub` claim. -/
def tokNoSub : Token :=
  { sub := none, iat := 0, exp := 1000,
    scope := some "access_token", key := SECRET_KEY }

/-- World with no users, empty cache, nothing revoked. -/
def sEmpty : AppState := { users := [], cache := [], revoked := [] }

/-- World where `alice@x` exists and her access token has been revoked. -/
def sRevokedA : AppState := { users := [aliceU], cache := [], revoked := [tokA] }

/-- World where the cache holds an inactive snapshot for `bob@x`. -/
def sCachedBob : AppState :=
  { users := [],
    cache := [(userKey "bob@x", { snapshot := bobInactive, ttl := some 900 })],
    revoked := [] }

/-- C5: the access pipeline checks the signature first (a bad signature is
reported as `badSignature` no matter what the expiry or scope say), then
expiry (reported only once the signature matched), then scope equality; and
malformed, expired, wrong-scope, missing-subject, revoked, and
unresolvable-subject tokens are all reported with the one opaque
`credentials_exception`, indistinguishable by cause. -/
theorem access_failures_coalesced (tok : Token) (key : String) (now : Nat)
    (s : AppState) (email : String) :
    (tok.key ≠ key → jwtDecode tok key now = .error .badSignature) ∧
    (tok.key = key → tok.exp < now → jwtDecode tok key now = .error .expired) ∧
    (tok.key ≠ SECRET_KEY → (get_current_user s tok now).1 = .error credentials_exception) ∧
    (tok.exp < now → (get_current_user s tok now).1 = .error credentials_exception) ∧
    (tok.key = SECRET_KEY → ¬ tok.exp < now → tok.scope ≠ some "access_token" →
      (get_current_user s tok now).1 = .error credentials_exception) ∧
    (tok.key = SECRET_KEY → ¬ tok.exp < now → tok.scope = some "access_token" →
      tok.sub = none → (get_current_user s tok now).1 = .error credentials_exception) ∧
    (verify_access_token tok now = .ok email → is_validate_token tok s = true →
      (get_current_user s tok now).1 = .error credentials_exception) ∧
    (verify_access_token tok now = .ok email → is_validate_token tok s = false →
      cacheGet s.cache (userKey email) = none →
      get_user_by_email email s.users = none →
      (get_current_user s tok now).1 = .error credentials_exception) := by
  refine ⟨?_, ?_, ?_, ?_, ?_, ?_, ?_, ?_⟩
  · intro h
    simp [jwtDecode, h]
  · intro h1 h2
    simp [jwtDecode, h1, h2]
  · intro h
    simp [get_current_user, verify_access_token, jwtDecode, h]
  · intro h
    by_cases hk : tok.key = SECRET_KEY
    · simp [get_current_user, verify_access_token, jwtDecode, h, hk]
    · simp [get_current_user, verify_access_token, jwtDecode, h, hk]
  · intro h1 h2 h3
    simp [get_current_user, verify_access_token, jwtDecode, h1, h2, h3]
  · intro h1 h2 h3 h4
    simp [get_current_user, verify_access_token, jwtDecode, h1, h2, h3, h4]
  · intro hv hr
    simp [get_current_user, hv, hr]
  · intro hv hr hc hd
    simp [get_current_user, hv, hr, hc, hd]

/-- Witness for C5: each failure cause at a concrete input, all answered by
the same `credentials_exception`, and the decode order at concrete tokens. -/
theorem access_failures_coalesced_witness :
    jwtDecode tokBadSig SECRET_KEY 2000 = .error .badSignature ∧
    jwtDecode tokA SECRET_KEY 2000 = .error .expired ∧
    (get_current_user sEmpty tokBadSig 0).1 = .error credentials_exception ∧
    (get_current_user sEmpty tokA 2000).1 = .error credentials_exception ∧
    (get_current_user sEmpty tokWrongScope 0).1 = .error credentials_exception ∧
    (get_current_user sEmpty tokNoSub 0).1 = .error credentials_exception ∧
    (get_current_user sRevokedA tokA 0).1 = .error credentials_exception ∧
    (get_current_user sEmpty tokA 0).1 = .error credentials_exception :=
  ⟨(access_failures_coalesced tokBadSig SECRET_KEY 2000 sEmpty "alice@x").1 (by decide),
   (access_failures_coalesced tokA SECRET_KEY 2000 sEmpty "alice@x").2.1 (by decide) (by decide),
   (access_failures_coalesced tokBadSig SECRET_KEY 0 sEmpty "alice@x").2.2.1 (by decide),
   (access_failures_coalesced tokA SECRET_KEY 2000 sEmpty "alice@x").2.2.2.1 (by decide),
   (access_failures_coalesced tokWrongScope SECRET_KEY 0 sEmpty "alice@x").2.2.2.2.1
     (by decide) (by decide) (by decide),
   (access_failures_coalesced tokNoSub SECRET_KEY 0 sEmpty "alice@x").2.2.2.2.2.1
     (by decide) (by decide) (by decide) (by decide),
   (access_failures_coalesced tokA SECRET_KEY 0 sRevokedA "alice@x").2.2.2.2.2.2.1
     (by decide) (by decide),
   (access_failures_coalesced tokA SECRET_KEY 0 sEmpty "alice@x").2.2.2.2.2.2.2
     (by decide) (by decide) (by decide) (by decide)⟩

/-- C6: a revoked token that decodes correctly is rejected with the opaque
`credentials_exception` right after the revocation check: the returned
trace is exactly `[revocationCheck]` — no cache read, no UserStore read —
the state is unchanged, and no identity is produced. -/
theorem revoked_rejected_before_identity (s : AppState) (tok : Token) (now : Nat)
    (email : String)
    (hv : verify_access_token tok now = .ok email)
    (hr : is_validate_token tok s = true) :
    get_current_user s tok now = (.error credentials_exception, s, [.revocationCheck tok]) := by
  simp [get_current_user, hv, hr]

/-- Witness for C6: alice's revoked access token at the concrete revoked
world. -/
theorem revoked_rejected_before_identity_witness :
    get_current_user sRevokedA tokA 0 =
      (.error credentials_exception, sRevokedA, [.revocationCheck tokA]) :=
  revoked_rejected_before_identity sRevokedA tokA 0 "alice@x" (by decide) (by decide)

/-- C2: whenever the subject of a verified, unrevoked token resolves — from
the cache or freshly from the users table — to an identity with
`is_active = false`, `get_current_user` answers `user_banned`, which is a
different user-visible error than `credentials_exception`; in particular no
identity is returned. -/
theorem banned_user_rejected (s : AppState) (tok : Token) (now : Nat) (email : String)
    (hv : verify_access_token tok now = .ok email)
    (hr : is_validate_token tok s = false)
    (hid : (∃ entry, cacheGet s.cache (userKey email) = some entry ∧
             entry.snapshot.is_active = false) ∨
           (cacheGet s.cache (userKey email) = none ∧
            ∃ u, get_user_by_email email s.users = some u ∧ u.is_active = false)) :
    (get_current_user s tok now).1 = .error user_banned ∧
    user_banned ≠ credentials_exception := by
  constructor
  · rcases hid with ⟨entry, hc, hact⟩ | ⟨hc, u, hu, hact⟩
    · simp [get_current_user, hv, hr, hc, unpickle_and_ban_check, hact]
    · simp [get_current_user, hv, hr, hc, hu, hact]
  · decide

/-- Witness for C2: a cached inactive snapshot for `bob@x` yields
`user_banned` on his still-valid access token. -/
theorem banned_user_rejected_witness :
    (get_current_user sCachedBob tokB 0).1 = .error user_banned ∧
    user_banned ≠ credentials_exception :=
  banned_user_rejected sCachedBob tokB 0 "bob@x" (by decide) (by decide)
    (Or.inl ⟨{ snapshot := bobInactive, ttl := some 900 }, by decide, by decide⟩)

/-- World with only the inactive `bob@x` on file and an empty cache. -/
def sMissBob : AppState := { users := [bobInactive], cache := [], revoked := [] }

/-- World with only the active `alice@x` on file and an empty cache. -/
def sAliceOnly : AppState := { users := [aliceU], cache := [], revoked := [] }

/-- C8 counterexample: a cache miss whose subject exists but is inactive is
rejected without the snapshot ever being stored — the cache is still empty
afterwards — refuting "on a miss, resolve_identity loads the user and
stores the snapshot in the cache with a 900-second TTL" as a statement
about every miss. -/
theorem cache_miss_inactive_not_cached_cex :
    cacheGet sMissBob.cache (userKey "bob@x") = none ∧
    get_user_by_email "bob@x" sMissBob.users = some bobInactive ∧
    get_current_user sMissBob tokB 0 =
      (.error user_banned, sMissBob,
        [.revocationCheck tokB, .cacheGet (userKey "bob@x"), .dbGetByEmail "bob@x"]) ∧
    (get_current_user sMissBob tokB 0).2.1.cache = [] := by
  decide

/-- C8 (amended): on a cache miss the pipeline reads the UserStore; an
absent subject is rejected with the opaque `credentials_exception`; an
inactive subject is rejected with `user_banned` and the snapshot is NOT
cached; an active subject is returned and its snapshot is cached with a
900-second TTL. -/
theorem cache_miss_resolution (s : AppState) (tok : Token) (now : Nat) (email : String)
    (hv : verify_access_token tok now = .ok email)
    (hr : is_validate_token tok s = false)
    (hc : cacheGet s.cache (userKey email) = none) :
    (get_user_by_email email s.users = none →
      get_current_user s tok now =
        (.error credentials_exception, s,
          [.revocationCheck tok, .cacheGet (userKey email), .dbGetByEmail email])) ∧
    (∀ u, get_user_by_email email s.users = some u → u.is_active = false →
      get_current_user s tok now =
        (.error user_banned, s,
          [.revocationCheck tok, .cacheGet (userKey email), .dbGetByEmail email])) ∧
    (∀ u, get_user_by_email email s.users = some u → u.is_active = true →
      (get_current_user s tok now).1 = .ok u ∧
      cacheGet (get_current_user s tok now).2.1.cache (userKey email) =
        some { snapshot := u, ttl := some 900 }) := by
  refine ⟨?_, ?_, ?_⟩
  · intro hd
    simp [get_current_user, hv, hr, hc, hd]
  · intro u hd hact
    simp [get_current_user, hv, hr, hc, hd, hact]
  · intro u hd hact
    constructor
    · simp [get_current_user, unpickle_and_ban_check, hv, hr, hc, hd, hact]
    · simp [get_current_user, unpickle_and_ban_check, hv, hr, hc, hd, hact,
        cacheGet_set_expire]

/-- Witness for the amended C8: the three miss outcomes at concrete worlds
(absent subject, inactive subject, active subject). -/
theorem cache_miss_resolution_witness :
    get_current_user sEmpty tokA 0 =
      (.error credentials_exception, sEmpty,
        [.revocationCheck tokA, .cacheGet (userKey "alice@x"), .dbGetByEmail "alice@x"]) ∧
    get_current_user sMissBob tokB 0 =
      (.error user_banned, sMissBob,
        [.revocationCheck tokB, .cacheGet (userKey "bob@x"), .dbGetByEmail "bob@x"]) ∧
    ((get_current_user sAliceOnly tokA 0).1 = .ok aliceU ∧
      cacheGet (get_current_user sAliceOnly tokA 0).2.1.cache (userKey "alice@x") =
        some { snapshot := aliceU, ttl := some 900 }) :=
  ⟨(cache_miss_resolution sEmpty tokA 0 "alice@x"
      (by decide) (by decide) (by decide)).1 (by decide),
   (cache_miss_resolution sMissBob tokB 0 "bob@x"
      (by decide) (by decide) (by decide)).2.1 bobInactive (by decide) (by decide),
   (cache_miss_resolution sAliceOnly tokA 0 "alice@x"
      (by decide) (by decide) (by decide)).2.2 aliceU (by decide) (by decide)⟩

/-- C9: a well-formed, unexpired refresh token whose subject has no user
row does not raise: the route mints and returns a fresh
(access, refresh) pair and the state — in particular every stored refresh
token — is unchanged. -/
theorem refresh_unknown_subject_stateless (s : AppState) (tok : Token) (now : Nat)
    (email : String)
    (hd : decode_refresh_token tok now = .ok email)
    (hu : get_user_by_email email s.users = none) :
    refresh_route s tok now =
      (.ok (create_access_token (some email) none now,
            create_refresh_token (some email) none now), s) := by
  simp [refresh_route, hd, hu]

/-- Witness for C9: a valid refresh token for `alice@x` against an empty
user table. -/
theorem refresh_unknown_subject_stateless_witness :
    refresh_route sEmpty tokWrongScope 0 =
      (.ok (create_access_token (some "alice@x") none 0,
            create_refresh_token (some "alice@x") none 0), sEmpty) :=
  refresh_unknown_subject_stateless sEmpty tokWrongScope 0 "alice@x"
    (by decide) (by decide)

/-- C10: `get_email_from_token` checks only the signature and expiry — not
the scope — so ANY token signed with the service key whose `sub` is
present (access and refresh tokens included) is accepted and its `sub`
returned as the verified email; consequently `reset_password` accepts such
a token and changes the password of the user it names. -/
theorem email_token_no_scope_check (tok : Token) (now : Nat) (email : String)
    (s : AppState) (u : UserRec) (pw : String)
    (hk : tok.key = SECRET_KEY) (he : ¬ tok.exp < now) (hs : tok.sub = some email) :
    get_email_from_token tok now = .ok email ∧
    (get_user_by_email email s.users = some u →
      (reset_password_route s pw tok now).1 =
        .ok ({ u with password := get_password_hash pw }, "Password reset complete!")) := by
  have hget : get_email_from_token tok now = .ok email := by
    simp [get_email_from_token, jwtDecode, hk, he, hs]
  refine ⟨hget, ?_⟩
  intro hu
  simp [reset_password_route, hget, hu, change_password]

/-- Witness for C10: an ACCESS token (`tokA`) and a REFRESH token
(`tokWrongScope`) are both accepted by the email-token decoder, and the
access token drives a successful password reset for `alice@x`. -/
theorem email_token_no_scope_check_witness :
    get_email_from_token tokA 0 = .ok "alice@x" ∧
    get_email_from_token tokWrongScope 0 = .ok "alice@x" ∧
    (reset_password_route sAliceOnly "newpw" tokA 0).1 =
      .ok ({ aliceU with password := get_password_hash "newpw" },
        "Password reset complete!") :=
  ⟨(email_token_no_scope_check tokA 0 "alice@x" sAliceOnly aliceU "newpw"
      (by decide) (by decide) (by decide)).1,
   (email_token_no_scope_check tokWrongScope 0 "alice@x" sAliceOnly aliceU "newpw"
      (by decide) (by decide) (by decide)).1,
   (email_token_no_scope_check tokA 0 "alice@x" sAliceOnly aliceU "newpw"
      (by decide) (by decide) (by decide)).2 (by decide)⟩

/-- The refresh token stored for `carol@x` (issued at second 5). -/
def carolStored : Token :=
  { sub := some "carol@x", iat := 5, exp := 700000,
    scope := some "refresh_token", key := SECRET_KEY }

/-- A superseded, still well-signed and unexpired refresh token for
`carol@x` (issued at second 0), different from the stored one. -/
def carolPresented : Token :=
  { sub := some "carol@x", iat := 0, exp := 600000,
    scope := some "refresh_token", key := SECRET_KEY }

/-- `carol@x` with `carolStored` as her current refresh token. -/
def carolU : UserRec :=
  { id := 3, username := "carol", email := "carol@x", confirmed := true,
    password := "pw", refresh_token := some carolStored, avatar := none,
    roles := .user, is_active := true }

/-- World containing only `carol@x`. -/
def sCarol : AppState := { users := [carolU], cache := [], revoked := [] }

/-- C3 at the failing input: presenting a refresh token that differs from
the stored one is rejected with `invalid_refresh_error`, but the stored
refresh-token reference is NOT cleared — the state is unchanged, because
`update_token(user, None, db)` is a no-op under its `if refresh_token:`
guard. -/
theorem refresh_mismatch_keeps_stored_token :
    carolU.refresh_token = some carolStored ∧
    carolStored ≠ carolPresented ∧
    refresh_route sCarol carolPresented 10 = (.error invalid_refresh_error, sCarol) ∧
    (get_user_by_email "carol@x" (refresh_route sCarol carolPresented 10).2.users).map
      (fun u => u.refresh_token) = some (some carolStored) ∧
    update_token carolU none sCarol.users = sCarol.users := by
  decide

/-- `dina@x`, whose stored refresh token was minted at second 0. -/
def dinaU : UserRec :=
  { id := 4, username := "dina", email := "dina@x", confirmed := true,
    password := "pw",
    refresh_token := some (create_refresh_token (some "dina@x") none 0),
    avatar := none, roles := .user, is_active := true }

/-- C4 counterexample: when the rotation happens within the same integral
second as the original issuance, the new refresh token is the identical
claim set and hence the identical token, so a "second call to
refresh(refresh_1)" succeeds with a fresh pair instead of yielding
InvalidRefreshToken. -/
theorem refresh_same_second_replay_cex :
    (refresh_route { users := [dinaU], cache := [], revoked := [] }
        (create_refresh_token (some "dina@x") none 0) 0).1 =
      .ok (create_access_token (some "dina@x") none 0,
           create_refresh_token (some "dina@x") none 0) ∧
    (refresh_route
        (refresh_route { users := [dinaU], cache := [], revoked := [] }
          (create_refresh_token (some "dina@x") none 0) 0).2
        (create_refresh_token (some "dina@x") none 0) 0).1 =
      .ok (create_access_token (some "dina@x") none 0,
           create_refresh_token (some "dina@x") none 0) := by
  decide

/-- C4 (amended): provided the rotation mints a token distinct from the
presented one (`create_refresh_token` at `t1` differs from `refresh_1`,
which holds whenever they are minted at different integral seconds), a
successful `refresh(refresh_1)` persists the new token, and a second
`refresh(refresh_1)` — while `refresh_1` still decodes — is rejected with
`invalid_refresh_error` and yields no pair. -/
theorem refresh_rotation_rejects_reuse (s : AppState) (r1 : Token) (email : String)
    (t1 t2 : Nat) (u : UserRec)
    (hd1 : decode_refresh_token r1 t1 = .ok email)
    (hu : get_user_by_email email s.users = some u)
    (hstored : u.refresh_token = some r1)
    (hfresh : create_refresh_token (some email) none t1 ≠ r1)
    (hd2 : decode_refresh_token r1 t2 = .ok email) :
    (refresh_route s r1 t1).1 =
      .ok (create_access_token (some email) none t1,
           create_refresh_token (some email) none t1) ∧
    (refresh_route (refresh_route s r1 t1).2 r1 t2).1 = .error invalid_refresh_error := by
  have hmail : u.email = email := get_user_by_email_mem email s.users u hu
  have hfirst : refresh_route s r1 t1 =
      (.ok (create_access_token (some email) none t1,
            create_refresh_token (some email) none t1),
       { s with users := commitUser u.email ({ u with refresh_token := some (create_refresh_token (some email) none t1) }) s.users }) := by
    simp [refresh_route, hd1, hu, hstored, update_token]
  have hu' : get_user_by_email email
      (commitUser u.email
        ({ u with refresh_token := some (create_refresh_token (some email) none t1) })
        s.users) =
      some { u with refresh_token := some (create_refresh_token (some email) none t1) } := by
    rw [hmail]
    exact get_user_by_email_commitUser email _ s.users u (by simp [hmail]) hu
  constructor
  · rw [hfirst]
  · rw [hfirst]
    have hne : ({ u with
        refresh_token := some (create_refresh_token (some email) none t1) } : UserRec).refresh_token ≠
        some r1 := by
      simpa using hfresh
    simp [refresh_route, hd2, hu', hne]

/-- Witness for the amended C4: dina's token rotated one second later; the
reuse two seconds later is rejected. -/
theorem refresh_rotation_rejects_reuse_witness :
    (refresh_route { users := [dinaU], cache := [], revoked := [] }
        (create_refresh_token (some "dina@x") none 0) 1).1 =
      .ok (create_access_token (some "dina@x") none 1,
           create_refresh_token (some "dina@x") none 1) ∧
    (refresh_route
        (refresh_route { users := [dinaU], cache := [], revoked := [] }
          (create_refresh_token (some "dina@x") none 0) 1).2
        (create_refresh_token (some "dina@x") none 0) 2).1 =
      .error invalid_refresh_error :=
  refresh_rotation_rejects_reuse { users := [dinaU], cache := [], revoked := [] }
    (create_refresh_token (some "dina@x") none 0) "dina@x" 1 2 dinaU
    (by decide) (by decide) (by decide) (by decide) (by decide)

/-- An admin caller, for the mutation-route witnesses. -/
def adminU : UserRec :=
  { id := 9, username := "root", email := "root@x", confirmed := true,
    password := "pw", refresh_token := none, avatar := none,
    roles := .admin, is_active := true }

/-- World with alice (cached snapshot present), the banned bob, and an
admin. -/
def sW : AppState :=
  { users := [aliceU, bobInactive, adminU],
    cache := [(userKey "alice@x", { snapshot := aliceU, ttl := some 900 })],
    revoked := [] }

/-- World where alice's pre-mutation snapshot sits in the cache. -/
def sAliceCached : AppState :=
  { users := [aliceU],
    cache := [(userKey "alice@x", { snapshot := aliceU, ttl := some 900 })],
    revoked := [] }

/-- C1 counterexample: `edit_my_profile` changes alice's username and
avatar, reports success — and leaves her pre-mutation snapshot (username
still `"alice"`) in the IdentityCache untouched, refuting the claim that
every such mutation deletes the subject's cache entry before reporting
success. -/
theorem edit_profile_stale_cache_cex :
    (edit_my_profile_route sAliceCached "newalice" aliceU).1 =
      .ok (some ({ aliceU with username := "newalice", avatar := some (cloudinary_avatar_url "newalice") }),
           "My profile was successfully edited") ∧
    (edit_my_profile_route sAliceCached "newalice" aliceU).2.1.cache = sAliceCached.cache ∧
    cacheGet (edit_my_profile_route sAliceCached "newalice" aliceU).2.1.cache
      (userKey "alice@x") = some { snapshot := aliceU, ttl := some 900 } ∧
    aliceU.username = "alice" := by
  decide

/-- C1 (amended): `ban_user` deletes the subject's cache entry at the route
layer BEFORE persisting (and the spec-modelled UserStore mutation deletes
it again after the persist), `activate_user` and `change_role` invalidate
via the spec-modelled UserStore mutation after persisting, so all three
end with the subject's entry absent when success is reported — but
`edit_my_profile` persists a username/avatar change and reports success
with the cache untouched, so the pre-mutation snapshot can remain. -/
theorem mutation_cache_invalidation (s : AppState) (username name : String)
    (role : Role) (cu target : UserRec) :
    (get_user_username username s.users = some target →
     target.username ≠ cu.username →
     target.is_active = true →
     get_user_by_email target.email s.users = some target →
     (ban_user_route s username cu).1 =
       .ok (some ({ target with is_active := false }),
            "The user " ++ target.username ++ " has been banned") ∧
     cacheGet (ban_user_route s username cu).2.1.cache (userKey target.email) = none ∧
     get_user_by_email target.email (ban_user_route s username cu).2.1.users =
       some ({ target with is_active := false }) ∧
     (ban_user_route s username cu).2.2 =
       [.dbGetByUsername username, .cacheDel (userKey target.email),
        .dbGetByEmail target.email, .dbCommit, .cacheDel (userKey target.email)]) ∧
    (get_user_username username s.users = some target →
     get_user_by_email target.email s.users = some target →
     (activate_user_route s username).1 =
       .ok (some ({ target with is_active := true }),
            "The user " ++ target.username ++ " has been activated") ∧
     cacheGet (activate_user_route s username).2.1.cache (userKey target.email) = none ∧
     get_user_by_email target.email (activate_user_route s username).2.1.users =
       some ({ target with is_active := true }) ∧
     (activate_user_route s username).2.2 =
       [.dbGetByUsername username, .dbGetByEmail target.email, .dbCommit,
        .cacheDel (userKey target.email)]) ∧
    (get_user_username username s.users = some target →
     target.is_active = true →
     target.confirmed = true →
     cu.username ≠ target.username →
     get_user_by_email target.email s.users = some target →
     (change_role_route s username role cu).1 =
       .ok (some ({ target with roles := role }), "The user's role has been changed") ∧
     cacheGet (change_role_route s username role cu).2.1.cache (userKey target.email) = none ∧
     get_user_by_email target.email (change_role_route s username role cu).2.1.users =
       some ({ target with roles := role }) ∧
     (change_role_route s username role cu).2.2 =
       [.dbGetByUsername username, .dbGetByEmail target.email, .dbCommit,
        .cacheDel (userKey target.email)]) ∧
    (get_user_username name s.users = none →
     get_user_by_email cu.email s.users = some target →
     name ≠ "" →
     (edit_my_profile_route s name cu).1 =
       .ok (some ({ target with username := name, avatar := some (cloudinary_avatar_url name) }),
            "My profile was successfully edited") ∧
     (edit_my_profile_route s name cu).2.1.cache = s.cache ∧
     (edit_my_profile_route s name cu).2.2 =
       [.dbGetByUsername name, .dbGetByEmail cu.email, .dbCommit]) := by
  refine ⟨?_, ?_, ?_, ?_⟩
  · intro h1 h2 h3 h4
    have hroute : ban_user_route s username cu =
        (.ok (some ({ target with is_active := false }),
              "The user " ++ target.username ++ " has been banned"),
         { s with users := commitUser target.email ({ target with is_active := false }) s.users, cache := cacheDel (cacheDel s.cache (userKey target.email)) (userKey target.email) },
         [.dbGetByUsername username, .cacheDel (userKey target.email),
          .dbGetByEmail target.email, .dbCommit, .cacheDel (userKey target.email)]) := by
      simp [ban_user_route, repo_ban_user, h1, h2, h3, h4]
    refine ⟨by rw [hroute], by rw [hroute]; exact cacheGet_cacheDel _ _, ?_, by rw [hroute]⟩
    rw [hroute]
    exact get_user_by_email_commitUser target.email _ s.users target rfl h4
  · intro h1 h4
    have hroute : activate_user_route s username =
        (.ok (some ({ target with is_active := true }),
              "The user " ++ target.username ++ " has been activated"),
         { s with users := commitUser target.email ({ target with is_active := true }) s.users, cache := cacheDel s.cache (userKey target.email) },
         [.dbGetByUsername username, .dbGetByEmail target.email, .dbCommit,
          .cacheDel (userKey target.email)]) := by
      simp [activate_user_route, repo_activate_user, h1, h4]
    refine ⟨by rw [hroute], by rw [hroute]; exact cacheGet_cacheDel _ _, ?_, by rw [hroute]⟩
    rw [hroute]
    exact get_user_by_email_commitUser target.email _ s.users target rfl h4
  · intro h1 h2 h3 hne h4
    have hroute : change_role_route s username role cu =
        (.ok (some ({ target with roles := role }), "The user's role has been changed"),
         { s with users := commitUser target.email ({ target with roles := role }) s.users, cache := cacheDel s.cache (userKey target.email) },
         [.dbGetByUsername username, .dbGetByEmail target.email, .dbCommit,
          .cacheDel (userKey target.email)]) := by
      simp [change_role_route, repo_change_role, h1, h2, h3, hne, h4]
    refine ⟨by rw [hroute], by rw [hroute]; exact cacheGet_cacheDel _ _, ?_, by rw [hroute]⟩
    rw [hroute]
    exact get_user_by_email_commitUser target.email _ s.users target rfl h4
  · intro h1 h4 hname
    have hroute : edit_my_profile_route s name cu =
        (.ok (some ({ target with username := name, avatar := some (cloudinary_avatar_url name) }),
              "My profile was successfully edited"),
         { s with users := commitUser cu.email ({ target with username := name, avatar := some (cloudinary_avatar_url name) }) s.users },
         [.dbGetByUsername name, .dbGetByEmail cu.email, .dbCommit]) := by
      simp [edit_my_profile_route, repo_edit_my_profile, h1, h4, hname]
    exact ⟨by rw [hroute], by rw [hroute], by rw [hroute]⟩

/-- Witness for the amended C1: at the concrete world `sW`, an admin bans
alice, activates bob, and changes alice's role — the subject's cache entry
is gone each time — while an admin profile edit succeeds with the cache
untouched. -/
theorem mutation_cache_invalidation_witness :
    ((ban_user_route sW "alice" adminU).1 =
       .ok (some ({ aliceU with is_active := false }),
            "The user " ++ aliceU.username ++ " has been banned") ∧
     cacheGet (ban_user_route sW "alice" adminU).2.1.cache (userKey "alice@x") = none) ∧
    ((activate_user_route sW "bob").1 =
       .ok (some ({ bobInactive with is_active := true }),
            "The user " ++ bobInactive.username ++ " has been activated") ∧
     cacheGet (activate_user_route sW "bob").2.1.cache (userKey "bob@x") = none) ∧
    ((change_role_route sW "alice" .moderator adminU).1 =
       .ok (some ({ aliceU with roles := .moderator }),
            "The user's role has been changed") ∧
     cacheGet (change_role_route sW "alice" .moderator adminU).2.1.cache
       (userKey "alice@x") = none) ∧
    ((edit_my_profile_route sW "fresh" adminU).1 =
       .ok (some ({ adminU with username := "fresh", avatar := some (cloudinary_avatar_url "fresh") }),
            "My profile was successfully edited") ∧
     (edit_my_profile_route sW "fresh" adminU).2.1.cache = sW.cache) := by
  have h := mutation_cache_invalidation sW "alice" "fresh" .moderator adminU aliceU
  have hb := mutation_cache_invalidation sW "bob" "fresh" .moderator adminU bobInactive
  have hedit := mutation_cache_invalidation sW "alice" "fresh" .moderator adminU adminU
  refine ⟨?_, ?_, ?_, ?_⟩
  · have hc := h.1 (by decide) (by decide) (by decide) (by decide)
    exact ⟨hc.1, hc.2.1⟩
  · have hc := hb.2.1 (by decide) (by decide)
    exact ⟨hc.1, hc.2.1⟩
  · have hc := h.2.2.1 (by decide) (by decide) (by decide) (by decide) (by decide)
    exact ⟨hc.1, hc.2.1⟩
  · have hc := hedit.2.2.2 (by decide) (by decide) (by decide)
    exact ⟨hc.1, hc.2.1⟩

end PhotoApp
